import Mathlib

/-!
Verification of the Calendar Availability & Resolution Engine
(repository `smart_scheduler_ai_agent`, files `functions.py` and
`scheduler_agent.py`).

The engine is shallowly embedded:

* date/time strings are Lean `String`s, parsed character by character the
  way CPython's `datetime.strptime` parses them for the five format strings
  that `functions.py:parse_datetime` tries (the `_strptime` regexes for
  `%Y %m %d %H %M %S`, case-insensitive literals, `\s+` for a whitespace
  literal, full-consumption check, and the `datetime` constructor's
  validity checks folded into the parser, since inside `parse_datetime`
  a construction failure raises the same `ValueError` that a format
  mismatch does);
* a timezone is modelled as a fixed offset from UTC in minutes (the
  configured `DEFAULT_TIMEZONE` is `"UTC"`, offset 0, unless overridden);
  `pytz.localize` on a naive datetime then simply attaches the offset;
* instants are compared through their absolute value in seconds
  (proleptic-Gregorian ordinal day * 86400 + wall-clock seconds - offset),
  which is how timezone-aware Python datetimes compare;
* the external Google Calendar Gateway is modelled where a claim needs its
  documented contract: `freebusy().query` returns the busy spans
  intersecting the queried window, `events().list` with
  `orderBy='startTime', maxResults=n` returns the first `n` matching
  events in start order.  Where a claim quantifies over whatever the
  Gateway returns, the busy/event list is a plain parameter instead.
-/

namespace SmartScheduler

/-! ## Characters and digits -/

/-- The value of an ASCII digit character, `none` for anything else
(the `\d` class of the `_strptime` regexes, ASCII digits). -/
def digitVal (c : Char) : Option Nat :=
  if 48 ≤ c.toNat ∧ c.toNat ≤ 57 then some (c.toNat - 48) else none

/-- ASCII whitespace, the characters Python's `\s` matches in ASCII range. -/
def isWsChar (c : Char) : Bool :=
  c = ' ' || c = '\t' || c = '\n' || c = '\x0d' || c = '\x0b' || c = '\x0c'

/-- Render one decimal digit (`0 ≤ d ≤ 9`) as a character. -/
def digitChar : Nat → Char
  | 0 => '0' | 1 => '1' | 2 => '2' | 3 => '3' | 4 => '4'
  | 5 => '5' | 6 => '6' | 7 => '7' | 8 => '8' | _ => '9'

/-- Two-digit zero-padded rendering (for values below 100). -/
def pad2 (n : Nat) : List Char := [digitChar (n / 10 % 10), digitChar (n % 10)]

/-- Four-digit zero-padded rendering (for values below 10000). -/
def pad4 (n : Nat) : List Char :=
  [digitChar (n / 1000 % 10), digitChar (n / 100 % 10),
   digitChar (n / 10 % 10), digitChar (n % 10)]

/-! ## Naive and timezone-aware datetimes -/

/-- A naive (timezone-less) datetime as produced by `datetime.strptime`. -/
structure NaiveDT where
  year : Nat
  month : Nat
  day : Nat
  hour : Nat
  minute : Nat
  second : Nat
deriving DecidableEq, Repr

/-- A timezone-aware datetime: wall-clock fields plus a fixed UTC offset in
minutes, the model of a `pytz`-localized `datetime` (an Instant). -/
structure AwareDT where
  naive : NaiveDT
  offMinutes : Int
deriving DecidableEq, Repr

/-- `tz.localize(dt)` for a fixed-offset zone: attach the offset. -/
def localizeTo (tzOff : Int) (n : NaiveDT) : AwareDT := ⟨n, tzOff⟩

/-! ## The five `strptime` field matchers

Each matcher mirrors the corresponding `_strptime` regex fragment.  The
two-character alternatives of each regex come first and consume two digits;
the one-character fallback consumes one.  Since in all five formats every
directive is followed by a non-digit literal (or the end of the format),
the regex engine never needs to backtrack out of the greedy two-character
branch, so this deterministic reading is exact. -/

/-- `%Y`, regex `\d\d\d\d`: exactly four digits. -/
def matchY : List Char → Option (Nat × List Char)
  | c1 :: c2 :: c3 :: c4 :: rest =>
    match digitVal c1, digitVal c2, digitVal c3, digitVal c4 with
    | some a, some b, some c, some d => some (1000 * a + 100 * b + 10 * c + d, rest)
    | _, _, _, _ => none
  | _ => none

/-- Generic 1-2 digit matcher: `twoOk` is the two-digit branch condition of
the regex alternation, `oneOk` the one-digit fallback condition. -/
def matchNum2 (twoOk : Nat → Nat → Bool) (oneOk : Nat → Bool) :
    List Char → Option (Nat × List Char)
  | [] => none
  | c :: rest =>
    match digitVal c with
    | none => none
    | some v1 =>
      match rest with
      | c2 :: rest2 =>
        match digitVal c2 with
        | some v2 =>
          if twoOk v1 v2 then some (10 * v1 + v2, rest2)
          else if oneOk v1 then some (v1, c2 :: rest2) else none
        | none => if oneOk v1 then some (v1, c2 :: rest2) else none
      | [] => if oneOk v1 then some (v1, []) else none

/-- `%m`, regex `1[0-2]|0[1-9]|[1-9]`. -/
def matchMonth : List Char → Option (Nat × List Char) :=
  matchNum2 (fun v1 v2 => (v1 == 1 && v2 ≤ 2) || (v1 == 0 && 1 ≤ v2)) (fun v1 => 1 ≤ v1)

/-- `%d`, regex `3[01]|[12]\d|0[1-9]|[1-9]`. -/
def matchDay : List Char → Option (Nat × List Char) :=
  matchNum2 (fun v1 v2 => (v1 == 3 && v2 ≤ 1) || v1 == 1 || v1 == 2 || (v1 == 0 && 1 ≤ v2))
    (fun v1 => 1 ≤ v1)

/-- `%H`, regex `2[0-3]|[0-1]\d|\d`. -/
def matchHour : List Char → Option (Nat × List Char) :=
  matchNum2 (fun v1 v2 => (v1 == 2 && v2 ≤ 3) || v1 ≤ 1) (fun _ => true)

/-- `%M`, regex `[0-5]\d|\d`. -/
def matchMinute : List Char → Option (Nat × List Char) :=
  matchNum2 (fun v1 _ => v1 ≤ 5) (fun _ => true)

/-- `%S`, regex `6[0-1]|[0-5]\d|\d` (leap seconds 60 and 61 are matched by
the regex; the `datetime` constructor then rejects them, see `strptime`). -/
def matchSecond : List Char → Option (Nat × List Char) :=
  matchNum2 (fun v1 v2 => (v1 == 6 && v2 ≤ 1) || v1 ≤ 5) (fun _ => true)

/-! ## Formats and the format runner -/

/-- One token of a strptime format string: a literal character or one of
the directives used by `parse_datetime`. -/
inductive FmtTok
  | lit (c : Char)
  | Y | m | d | H | M | S
deriving DecidableEq, Repr

/-- A format string is a token list. -/
abbrev Fmt := List FmtTok

/-- The format `"%Y-%m-%dT%H:%M:%S"`. -/
def fmtTS : Fmt :=
  [.Y, .lit '-', .m, .lit '-', .d, .lit 'T', .H, .lit ':', .M, .lit ':', .S]

/-- The format `"%Y-%m-%dT%H:%M"`. -/
def fmtTM : Fmt := [.Y, .lit '-', .m, .lit '-', .d, .lit 'T', .H, .lit ':', .M]

/-- The format `"%Y-%m-%d %H:%M:%S"`. -/
def fmtSS : Fmt :=
  [.Y, .lit '-', .m, .lit '-', .d, .lit ' ', .H, .lit ':', .M, .lit ':', .S]

/-- The format `"%Y-%m-%d %H:%M"`. -/
def fmtSM : Fmt := [.Y, .lit '-', .m, .lit '-', .d, .lit ' ', .H, .lit ':', .M]

/-- The format `"%Y-%m-%d"`. -/
def fmtD : Fmt := [.Y, .lit '-', .m, .lit '-', .d]

/-- The list of formats `parse_datetime` tries, in the source's order. -/
def FORMATS : List Fmt := [fmtTS, fmtTM, fmtSS, fmtSM, fmtD]

/-- Fields collected while running a format; `_strptime`'s defaults are
year 1900, month 1, day 1, and midnight. -/
structure RawFields where
  fy : Nat := 1900
  fmo : Nat := 1
  fdy : Nat := 1
  fhh : Nat := 0
  fmm : Nat := 0
  fss : Nat := 0
deriving DecidableEq, Repr

/-- Drop a (possibly empty) run of whitespace. -/
def dropWsAll : List Char → List Char
  | [] => []
  | c :: rest => if isWsChar c then dropWsAll rest else c :: rest

/-- Run a format over the input.  A whitespace literal in the format
matches one or more whitespace characters (`_strptime` rewrites it to
`\s+`); any other literal matches case-insensitively (`re.IGNORECASE`).
The whole input must be consumed (`unconverted data remains` otherwise). -/
def runFmt : Fmt → List Char → RawFields → Option RawFields
  | [], [], acc => some acc
  | [], _ :: _, _ => none
  | .lit c :: ts, s, acc =>
    if isWsChar c then
      match s with
      | c0 :: rest => if isWsChar c0 then runFmt ts (dropWsAll rest) acc else none
      | [] => none
    else
      match s with
      | c0 :: rest => if c0.toLower = c.toLower then runFmt ts rest acc else none
      | [] => none
  | .Y :: ts, s, acc =>
    match matchY s with
    | some (v, rest) => runFmt ts rest { acc with fy := v }
    | none => none
  | .m :: ts, s, acc =>
    match matchMonth s with
    | some (v, rest) => runFmt ts rest { acc with fmo := v }
    | none => none
  | .d :: ts, s, acc =>
    match matchDay s with
    | some (v, rest) => runFmt ts rest { acc with fdy := v }
    | none => none
  | .H :: ts, s, acc =>
    match matchHour s with
    | some (v, rest) => runFmt ts rest { acc with fhh := v }
    | none => none
  | .M :: ts, s, acc =>
    match matchMinute s with
    | some (v, rest) => runFmt ts rest { acc with fmm := v }
    | none => none
  | .S :: ts, s, acc =>
    match matchSecond s with
    | some (v, rest) => runFmt ts rest { acc with fss := v }
    | none => none

/-- Gregorian leap year, as `calendar.isleap` / `datetime` use it. -/
def isLeap (y : Nat) : Bool := (y % 4 == 0 && y % 100 != 0) || y % 400 == 0

/-- Days in a month of a given year. -/
def daysInMonth (y m : Nat) : Nat :=
  if m = 2 then (if isLeap y then 29 else 28)
  else if m = 4 ∨ m = 6 ∨ m = 9 ∨ m = 11 then 30
  else 31

/-- `datetime.strptime(s, fmt)` restricted to the six directives above.
The final range checks are the ones the `datetime` constructor performs on
values the regexes let through: year at least `MINYEAR = 1`, day within
the month, second below 60; a violation raises the same `ValueError` a
format mismatch does, so it is folded into parser failure. -/
def strptime (fmt : Fmt) (s : String) : Option NaiveDT :=
  (runFmt fmt s.toList {}).bind fun f =>
    if 1 ≤ f.fy ∧ f.fdy ≤ daysInMonth f.fy f.fmo ∧ f.fss ≤ 59 then
      some ⟨f.fy, f.fmo, f.fdy, f.fhh, f.fmm, f.fss⟩
    else none

/-! ## `parse_datetime` and `format_datetime_for_api` (`functions.py`) -/

/-- Inner loop of `parse_datetime`: try each format in order, first match
wins.  None of the five formats carries `%z`, so `strptime` always yields
a naive value and the `dt.tzinfo is None` branch always localizes it. -/
def tryFormats (tzOff : Int) (s : String) : List Fmt → Except String AwareDT
  | [] => .error ("Could not parse datetime: " ++ s)
  | f :: fs =>
    match strptime f s with
    | some n => .ok (localizeTo tzOff n)
    | none => tryFormats tzOff s fs

/-- `functions.py:parse_datetime(dt_string, timezone)`. -/
def parse_datetime (s : String) (tzOff : Int) : Except String AwareDT :=
  tryFormats tzOff s FORMATS

/-- The `±HH:MM` suffix `datetime.isoformat` renders for a fixed offset. -/
def offsetSuffix (off : Int) : List Char :=
  (if off < 0 then '-' else '+') ::
    (pad2 (off.natAbs / 60) ++ ':' :: pad2 (off.natAbs % 60))

/-- `datetime.isoformat()` on an aware datetime with zero microseconds:
`YYYY-MM-DDTHH:MM:SS` followed by the offset suffix. -/
def isoformat (a : AwareDT) : String :=
  ⟨pad4 a.naive.year ++ '-' :: pad2 a.naive.month ++ '-' :: pad2 a.naive.day ++
    'T' :: pad2 a.naive.hour ++ ':' :: pad2 a.naive.minute ++
    ':' :: pad2 a.naive.second ++ offsetSuffix a.offMinutes⟩

/-- `functions.py:format_datetime_for_api(dt)`: `dt.isoformat()`. -/
def format_datetime_for_api (a : AwareDT) : String := isoformat a

/-! ## The five literal shapes, rendered

Spec-side definitions for the round-trip property: the canonical
zero-padded rendering of naive wall-clock fields in each of the five
accepted literal shapes. -/

/-- `YYYY-MM-DDTHH:MM:SS`. -/
def renderTS (n : NaiveDT) : List Char :=
  pad4 n.year ++ ('-' :: (pad2 n.month ++ ('-' :: (pad2 n.day ++
    ('T' :: (pad2 n.hour ++ (':' :: (pad2 n.minute ++ (':' :: pad2 n.second)))))))))

/-- `YYYY-MM-DDTHH:MM`. -/
def renderTM (n : NaiveDT) : List Char :=
  pad4 n.year ++ ('-' :: (pad2 n.month ++ ('-' :: (pad2 n.day ++
    ('T' :: (pad2 n.hour ++ (':' :: pad2 n.minute)))))))

/-- `YYYY-MM-DD HH:MM:SS`. -/
def renderSS (n : NaiveDT) : List Char :=
  pad4 n.year ++ ('-' :: (pad2 n.month ++ ('-' :: (pad2 n.day ++
    (' ' :: (pad2 n.hour ++ (':' :: (pad2 n.minute ++ (':' :: pad2 n.second)))))))))

/-- `YYYY-MM-DD HH:MM`. -/
def renderSM (n : NaiveDT) : List Char :=
  pad4 n.year ++ ('-' :: (pad2 n.month ++ ('-' :: (pad2 n.day ++
    (' ' :: (pad2 n.hour ++ (':' :: pad2 n.minute)))))))

/-- `YYYY-MM-DD`. -/
def renderD (n : NaiveDT) : List Char :=
  pad4 n.year ++ ('-' :: (pad2 n.month ++ ('-' :: pad2 n.day)))

/-- Naive fields that denote a real calendar instant representable by
`datetime` (year 1..9999, valid month/day, wall clock in range). -/
def ValidDT (n : NaiveDT) : Prop :=
  1 ≤ n.year ∧ n.year ≤ 9999 ∧ 1 ≤ n.month ∧ n.month ≤ 12 ∧
  1 ≤ n.day ∧ n.day ≤ daysInMonth n.year n.month ∧
  n.hour ≤ 23 ∧ n.minute ≤ 59 ∧ n.second ≤ 59

instance (n : NaiveDT) : Decidable (ValidDT n) := by unfold ValidDT; infer_instance

/-! ## Absolute time -/

/-- Days before month `m` in year `y` (`m` between 1 and 12). -/
def daysBeforeMonth (y m : Nat) : Nat :=
  (match m with
   | 1 => 0 | 2 => 31 | 3 => 59 | 4 => 90 | 5 => 120 | 6 => 151
   | 7 => 181 | 8 => 212 | 9 => 243 | 10 => 273 | 11 => 304 | _ => 334) +
  (if 3 ≤ m ∧ isLeap y then 1 else 0)

/-- Proleptic-Gregorian ordinal of a calendar date, `date(1,1,1)` being 0
(`datetime.date.toordinal` shifted by one, which only changes the epoch). -/
def dateOrdinal (y m d : Nat) : Nat :=
  365 * (y - 1) + (y - 1) / 4 + (y - 1) / 400 - (y - 1) / 100 +
    daysBeforeMonth y m + (d - 1)

/-- `dt.date()` as an ordinal day number. -/
def dateOrd (a : AwareDT) : Nat := dateOrdinal a.naive.year a.naive.month a.naive.day

/-- The absolute value of an aware datetime in seconds since the epoch
midnight of day 0 UTC.  Aware Python datetimes compare by exactly this
quantity (wall clock minus UTC offset). -/
def absSeconds (a : AwareDT) : Int :=
  (dateOrd a : Int) * 86400 + (a.naive.hour : Int) * 3600 +
    (a.naive.minute : Int) * 60 + (a.naive.second : Int) - a.offMinutes * 60

/-! ## The Availability Scanner (`scheduler_agent.py:find_available_slots`) -/

/-- The per-candidate availability test of `find_available_slots`
(lines 435-439): the candidate survives when for every busy period
`slot_end <= busy_start or slot_start >= busy_end`.  All instants are in
absolute seconds; busy periods are pairs `(busy_start, busy_end)`. -/
def slotIsAvailable (slotStart slotEnd : Int) (busyPeriods : List (Int × Int)) : Bool :=
  busyPeriods.all fun b => decide (slotEnd ≤ b.1) || decide (slotStart ≥ b.2)

/-- The overlap predicate of the spec's section 4.2, the negation of the
test in `slotIsAvailable`: a candidate `(cs, ce)` overlaps a busy span `b`
iff `not (ce <= b.start or cs >= b.end)`. -/
def overlapsBusy (cs ce : Int) (b : Int × Int) : Bool :=
  !(decide (ce ≤ b.1) || decide (cs ≥ b.2))

/-- The inner `while` loop of `find_available_slots` (lines 431-450): from
`slot_start`, while `slot_start + duration <= day_end`, emit the candidate
when it clears every busy period, then step 30 minutes.  `durSec` is the
duration in seconds; the step is 1800 seconds.  The `fuel` argument makes
the recursion structural; the loop stops by itself when the condition
fails, and every call site passes fuel at least `(dayEnd + 1800 - durSec -
slotStart).toNat`, which `scanDay_fuel_stable` below proves sufficient, so
the fuel never truncates the loop. -/
def scanDay (durSec : Int) (busyPeriods : List (Int × Int)) (dayEnd : Int) :
    Nat → Int → List (Int × Int)
  | 0, _ => []
  | fuel + 1, slotStart =>
    if slotStart + durSec ≤ dayEnd then
      (if slotIsAvailable slotStart (slotStart + durSec) busyPeriods then
        [(slotStart, slotStart + durSec)]
      else []) ++ scanDay durSec busyPeriods dayEnd fuel (slotStart + 1800)
    else []

/-- Entry fuel for `scanDay`. -/
def scanFuel (durSec dayEnd slotStart : Int) : Nat := (dayEnd + 1800 - durSec - slotStart).toNat

/-- The outer `while current_date <= end_date_obj` loop of
`find_available_slots` (lines 427-452), iterating over `numDays`
calendar days starting at ordinal `dayOrd`.  For each day,
`day_start`/`day_end` are the day's preference hours localized to the
default timezone (`tz.localize(datetime.combine(...))`), and the day's
candidates are appended in order. -/
def scanDays (durSec : Int) (busyPeriods : List (Int × Int))
    (startHour endHour : Nat) (tzOff : Int) : Nat → Nat → List (Int × Int)
  | 0, _ => []
  | n + 1, dayOrd =>
    scanDay durSec busyPeriods ((dayOrd : Int) * 86400 + (endHour : Int) * 3600 - tzOff * 60)
      (scanFuel durSec ((dayOrd : Int) * 86400 + (endHour : Int) * 3600 - tzOff * 60)
        ((dayOrd : Int) * 86400 + (startHour : Int) * 3600 - tzOff * 60))
      ((dayOrd : Int) * 86400 + (startHour : Int) * 3600 - tzOff * 60) ++
    scanDays durSec busyPeriods startHour endHour tzOff n (dayOrd + 1)

/-- The hour bounds the time preference maps to (lines 396-403). -/
def prefHours (timePreference : String) : Nat × Nat :=
  if timePreference = "morning" then (8, 12)
  else if timePreference = "afternoon" then (12, 17)
  else if timePreference = "evening" then (17, 20)
  else (8, 18)

/-- Outcome of a scan: the source returns a no-slots message when
`available_slots` is empty and otherwise the slot list (of which at most
5 are displayed, with the true total kept). -/
inductive SlotsOutcome
  | noSlots
  | found (slots : List (Int × Int))
deriving DecidableEq, Repr

/-- `scheduler_agent.py:find_available_slots`.  The busy periods the
Gateway's free/busy query returned for the widened window are the
`busyPeriods` parameter (absolute seconds).  Steps, as in the source:
parse both dates (a failure is caught and reported as an error result),
map the preference to hour bounds, widen `end_dt` to 23:59:59, then
enumerate the inclusive day range by calendar date. -/
def find_available_slots (durationMinutes : Int) (startDate endDate : String)
    (timePreference : String) (tzOff : Int) (busyPeriods : List (Int × Int)) :
    Except String SlotsOutcome :=
  match parse_datetime startDate tzOff with
  | .error e => .error ("Error finding slots: " ++ e)
  | .ok startDt =>
    match parse_datetime endDate tzOff with
    | .error e => .error ("Error finding slots: " ++ e)
    | .ok endDt0 =>
      let hours := prefHours timePreference
      let endDt : AwareDT :=
        { endDt0 with naive := { endDt0.naive with hour := 23, minute := 59, second := 59 } }
      let startOrd := dateOrd startDt
      let endOrd := dateOrd endDt
      let slots := scanDays (durationMinutes * 60) busyPeriods hours.1 hours.2 tzOff
        (endOrd + 1 - startOrd) startOrd
      if slots.isEmpty then .ok .noSlots else .ok (.found slots)

/-! ## The Conflict Checker
(`scheduler_agent.py:check_specific_time_availability`) -/

/-- Model of the external Gateway's `freebusy().query(timeMin, timeMax)`:
it returns, for the calendar, the busy spans that intersect the queried
window with positive length (a span touching the window only at a
boundary instant contributes nothing and is not reported).  `allBusy` is
the calendar's full busy state in absolute seconds. -/
def queryFreeBusy (timeMin timeMax : Int) (allBusy : List (Int × Int)) :
    List (Int × Int) :=
  allBusy.filter fun b => overlapsBusy timeMin timeMax b

/-- Outcome of a specific-time check: available, or the conflicting busy
spans each rendered with its own start and end (lines 742-755). -/
inductive CheckOutcome
  | available
  | conflict (spans : List (Int × Int))
deriving DecidableEq, Repr

/-- `scheduler_agent.py:check_specific_time_availability`: parse the two
datetimes, query free/busy for exactly that window, and classify:
available iff the returned busy list is empty, otherwise a conflict
listing every returned span. -/
def check_specific_time_availability (startDatetime endDatetime : String)
    (tzOff : Int) (allBusy : List (Int × Int)) : Except String CheckOutcome :=
  match parse_datetime startDatetime tzOff with
  | .error e => .error ("Error checking availability: " ++ e)
  | .ok startDt =>
    match parse_datetime endDatetime tzOff with
    | .error e => .error ("Error checking availability: " ++ e)
    | .ok endDt =>
      let busyTimes := queryFreeBusy (absSeconds startDt) (absSeconds endDt) allBusy
      if busyTimes.isEmpty then .ok .available else .ok (.conflict busyTimes)

/-! ## The Event Writer (`scheduler_agent.py:create_calendar_event`) -/

/-- Python `str.strip()` (ASCII whitespace). -/
def stripStr (s : String) : String :=
  ⟨(dropWsAll (dropWsAll s.toList.reverse).reverse)⟩

/-- Helper for `pySplitComma`: `cur` holds the current chunk reversed. -/
def splitCommaAux : List Char → List Char → List (List Char)
  | [], cur => [cur.reverse]
  | c :: rest, cur =>
    if c = ',' then cur.reverse :: splitCommaAux rest []
    else splitCommaAux rest (c :: cur)

/-- Python `s.split(',')`: chunks between commas, empty chunks kept, and
`"".split(',') == ['']`. -/
def pySplitComma (s : String) : List String :=
  (splitCommaAux s.toList []).map (fun l => ⟨l⟩)

/-- The event body `create_calendar_event` submits to the Gateway's
`events().insert`: summary, start, end, optional description, optional
attendee list. -/
structure EventRecord where
  summary : String
  startDT : AwareDT
  endDT : AwareDT
  description : Option String
  attendees : Option (List String)
deriving DecidableEq, Repr

/-- `scheduler_agent.py:create_calendar_event`: parse start and end (on
failure the exception is caught and an error result returned), build the
event body — description only when non-empty, attendees split on commas,
each stripped, blank entries dropped, the field present only when the
cleaned list is non-empty — and submit it.  The returned record is the
body handed to the Gateway; no other validation is performed before the
submission. -/
def create_calendar_event (title startDatetime endDatetime description attendees : String)
    (tzOff : Int) : Except String EventRecord :=
  match parse_datetime startDatetime tzOff with
  | .error e => .error ("Error creating event: " ++ e)
  | .ok startDt =>
    match parse_datetime endDatetime tzOff with
    | .error e => .error ("Error creating event: " ++ e)
    | .ok endDt =>
      let base : EventRecord :=
        { summary := title, startDT := startDt, endDT := endDt,
          description := none, attendees := none }
      let withDescr := if description ≠ "" then { base with description := some description }
        else base
      if attendees ≠ "" then
        let attendeeList :=
          ((pySplitComma attendees).map stripStr).filter (fun e => e ≠ "")
        if ¬ attendeeList.isEmpty then .ok { withDescr with attendees := some attendeeList }
        else .ok withDescr
      else .ok withDescr

/-! ## The Event Resolver (`scheduler_agent.py:find_calendar_event_by_name`) -/

/-- A calendar event as returned by the Gateway's list/search call, with
its start and end instants in absolute seconds. -/
structure CalEvent where
  summary : String
  startSec : Int
  endSec : Int
deriving DecidableEq, Repr

/-- Events ordered by start time (the Gateway's `orderBy='startTime'`). -/
def evLE (a b : CalEvent) : Prop := a.startSec ≤ b.startSec

instance : DecidableRel evLE := fun a b => inferInstanceAs (Decidable (a.startSec ≤ b.startSec))

instance : IsTotal CalEvent evLE := ⟨fun a b => Int.le_total a.startSec b.startSec⟩

instance : IsTrans CalEvent evLE := ⟨fun _ _ _ h1 h2 => le_trans h1 h2⟩

/-- Model of the external Gateway's `events().list(..., q=keyword,
maxResults, orderBy='startTime')`: of the events matching the keyword in
the queried window, the first `maxResults` in start-time order. -/
def listEvents (matching : List CalEvent) (maxResults : Nat) : List CalEvent :=
  (List.insertionSort evLE matching).take maxResults

/-- Outcome of a resolver call: not found, or the event the source renders
(`events[0]`), the number of events the Gateway returned, and whether the
multiple-matches note (`len(events) > 1`) is appended. -/
inductive ResolveOutcome
  | notFound
  | resolved (ev : CalEvent) (matchCount : Nat) (multipleNote : Bool)
deriving DecidableEq, Repr

/-- What `find_calendar_event_by_name` does with the Gateway's event list
(lines 650-695): empty means a not-found result (not an error); otherwise
the first event is rendered in detail and, when more than one matched, a
note reports the count.  (The rendering of the chosen event's time fields
— and the degraded result when they fail to parse — is presentation only
and not modelled.) -/
def processEvents (events : List CalEvent) : ResolveOutcome :=
  match events with
  | [] => .notFound
  | e :: rest => .resolved e (rest.length + 1) (decide (rest.length + 1 > 1))

/-- `scheduler_agent.py:find_calendar_event_by_name`: search the 180-day
horizon for events matching the keyword via the Gateway (which orders by
start time and returns at most `maxResults=10`, the literal in line 645),
then resolve.  `matching` is the set of events in the horizon matching
the keyword under the provider's search semantics. -/
def find_calendar_event_by_name (matching : List CalEvent) : ResolveOutcome :=
  processEvents (listEvents matching 10)

/-- Decidable equality on `Except`, for evaluating concrete outcomes. -/
instance {ε α : Type} [DecidableEq ε] [DecidableEq α] : DecidableEq (Except ε α) := fun a b =>
  match a, b with
  | .error e1, .error e2 =>
    if h : e1 = e2 then .isTrue (by rw [h]) else
      .isFalse (by intro hc; injection hc; contradiction)
  | .ok v1, .ok v2 =>
    if h : v1 = v2 then .isTrue (by rw [h]) else
      .isFalse (by intro hc; injection hc; contradiction)
  | .error _, .ok _ => .isFalse (by intro hc; injection hc)
  | .ok _, .error _ => .isFalse (by intro hc; injection hc)

/-! ## Scanner lemmas -/

/-- The fuel passed to `scanDay` never truncates the loop: once the fuel is
at least `scanFuel`, adding more fuel does not change the result, so the
fuel-indexed recursion computes exactly the source's `while` loop. -/
lemma scanDay_fuel_stable (durSec : Int) (busy : List (Int × Int)) (dayEnd : Int) :
    ∀ (fuel : Nat) (slotStart : Int), scanFuel durSec dayEnd slotStart ≤ fuel →
      scanDay durSec busy dayEnd fuel slotStart =
        scanDay durSec busy dayEnd (fuel + 1) slotStart := by
  intro fuel
  induction fuel with
  | zero =>
    intro s h
    have hc : ¬ (s + durSec ≤ dayEnd) := by unfold scanFuel at h; omega
    simp [scanDay, hc]
  | succ f ih =>
    intro s h
    by_cases hc : s + durSec ≤ dayEnd
    · have h2 : scanFuel durSec dayEnd (s + 1800) ≤ f := by unfold scanFuel at h ⊢; omega
      conv_lhs => rw [scanDay]
      conv_rhs => rw [scanDay]
      rw [if_pos hc, if_pos hc, ih _ h2]
    · simp [scanDay, hc]

/-- Every slot the inner loop emits passed the per-candidate availability
test against every busy period. -/
lemma slotIsAvailable_of_mem_scanDay {durSec : Int} {busy : List (Int × Int)}
    {dayEnd : Int} :
    ∀ {fuel : Nat} {slotStart : Int} {sl : Int × Int},
      sl ∈ scanDay durSec busy dayEnd fuel slotStart →
      slotIsAvailable sl.1 sl.2 busy = true := by
  intro fuel
  induction fuel with
  | zero => intro s sl h; simp [scanDay] at h
  | succ f ih =>
    intro s sl h
    simp only [scanDay] at h
    split at h
    · rcases List.mem_append.1 h with h1 | h2
      · split at h1
        · rename_i hav
          rcases List.mem_singleton.1 h1 with rfl
          exact hav
        · simp at h1
      · exact ih h2
    · simp at h

/-- Every slot the day loop emits passed the availability test. -/
lemma slotIsAvailable_of_mem_scanDays {durSec : Int} {busy : List (Int × Int)}
    {startHour endHour : Nat} {tzOff : Int} :
    ∀ {n : Nat} {dayOrd : Nat} {sl : Int × Int},
      sl ∈ scanDays durSec busy startHour endHour tzOff n dayOrd →
      slotIsAvailable sl.1 sl.2 busy = true := by
  intro n
  induction n with
  | zero => intro d sl h; simp [scanDays] at h
  | succ k ih =>
    intro d sl h
    simp only [scanDays] at h
    rcases List.mem_append.1 h with h1 | h2
    · exact slotIsAvailable_of_mem_scanDay h1
    · exact ih h2

/-- Characterization of `find_available_slots` once both dates parse. -/
lemma find_available_slots_eq {startDate endDate : String} {tzOff : Int}
    {sdt edt : AwareDT}
    (hps : parse_datetime startDate tzOff = .ok sdt)
    (hpe : parse_datetime endDate tzOff = .ok edt)
    (durationMinutes : Int) (timePreference : String)
    (busyPeriods : List (Int × Int)) :
    find_available_slots durationMinutes startDate endDate timePreference tzOff
        busyPeriods =
      (if (scanDays (durationMinutes * 60) busyPeriods (prefHours timePreference).1
            (prefHours timePreference).2 tzOff
            (dateOrdinal edt.naive.year edt.naive.month edt.naive.day + 1 - dateOrd sdt)
            (dateOrd sdt)).isEmpty
        then .ok .noSlots
        else .ok (.found (scanDays (durationMinutes * 60) busyPeriods
          (prefHours timePreference).1 (prefHours timePreference).2 tzOff
          (dateOrdinal edt.naive.year edt.naive.month edt.naive.day + 1 - dateOrd sdt)
          (dateOrd sdt)))) := by
  unfold find_available_slots
  rw [hps, hpe]
  rfl

/-! ## C1 — slots returned by the Scanner never overlap a busy interval -/

/-- C1.  For every busy set and every candidate interval the Availability
Scanner returns, the candidate does not overlap any busy interval: for
every busy `(bs, be)`, `candidate.end <= bs` or `candidate.start >= be`.
A candidate touching a busy boundary exactly satisfies the disjunction
with equality, so it is accepted (the witness exhibits both boundary
cases in the returned slots). -/
theorem scanner_slots_never_overlap_busy
    (durationMinutes : Int) (startDate endDate timePreference : String)
    (tzOff : Int) (busyPeriods : List (Int × Int)) (slots : List (Int × Int))
    (h : find_available_slots durationMinutes startDate endDate timePreference
        tzOff busyPeriods = .ok (.found slots)) :
    ∀ sl ∈ slots, ∀ b ∈ busyPeriods, sl.2 ≤ b.1 ∨ sl.1 ≥ b.2 := by
  intro sl hsl b hb
  cases hps : parse_datetime startDate tzOff with
  | error e => unfold find_available_slots at h; rw [hps] at h; exact absurd h (by simp)
  | ok sdt =>
    cases hpe : parse_datetime endDate tzOff with
    | error e =>
      unfold find_available_slots at h; rw [hps, hpe] at h; exact absurd h (by simp)
    | ok edt =>
      rw [find_available_slots_eq hps hpe] at h
      split at h
      · simp at h
      · injection h with h3
        injection h3 with h4
        rw [← h4] at hsl
        have hav := slotIsAvailable_of_mem_scanDays hsl
        have := List.all_eq_true.1 hav b hb
        simpa using this

/-- Witness for C1: Scenario A's input.  The returned slots include
`08:30-09:00`, whose end equals the busy start, and `10:00-10:30`, whose
start equals the busy end, and the theorem applies to them. -/
theorem scanner_slots_never_overlap_busy_witness :
    ((63899915400, 63899917200) ∈
        [((63899913600 : Int), (63899915400 : Int)), (63899915400, 63899917200),
          (63899920800, 63899922600), (63899922600, 63899924400),
          (63899924400, 63899926200), (63899926200, 63899928000)] ∧
      (63899920800, 63899922600) ∈
        [((63899913600 : Int), (63899915400 : Int)), (63899915400, 63899917200),
          (63899920800, 63899922600), (63899922600, 63899924400),
          (63899924400, 63899926200), (63899926200, 63899928000)]) ∧
    ∀ sl ∈ [((63899913600 : Int), (63899915400 : Int)), (63899915400, 63899917200),
        (63899920800, 63899922600), (63899922600, 63899924400),
        (63899924400, 63899926200), (63899926200, 63899928000)],
      ∀ b ∈ [((63899917200 : Int), (63899920800 : Int))], sl.2 ≤ b.1 ∨ sl.1 ≥ b.2 :=
  ⟨by decide,
    scanner_slots_never_overlap_busy 30 "2025-11-28" "2025-11-28" "morning" 0
      [(63899917200, 63899920800)] _ (by decide)⟩

/-! ## C6 — Scenario A, computed exactly -/

/-- C6.  Busy 09:00-10:00 on 2025-11-28 (day ordinal 739582, so 09:00 is
absolute second 63899917200), morning window 08:00-12:00, duration 30:
the Scanner returns exactly the six slots 08:00, 08:30, 10:00, 10:30,
11:00, 11:30, each 30 minutes, in chronological order — the slot ending
exactly at 12:00 included, the two slots overlapping 09:00-10:00
excluded. -/
theorem scenario_a_exact_slots :
    find_available_slots 30 "2025-11-28" "2025-11-28" "morning" 0
        [(63899917200, 63899920800)] =
      .ok (.found [(63899913600, 63899915400), (63899915400, 63899917200),
        (63899920800, 63899922600), (63899922600, 63899924400),
        (63899924400, 63899926200), (63899926200, 63899928000)]) := by
  decide

/-! ## C8 — reversed date range gives a normal no-slots outcome -/

/-- C8.  When the parsed end date's calendar day precedes the start
date's, the day loop runs zero times and the Scanner reports the normal
no-slots outcome — no error. -/
theorem reversed_range_yields_no_slots
    (durationMinutes : Int) (startDate endDate timePreference : String)
    (tzOff : Int) (busyPeriods : List (Int × Int)) (sdt edt : AwareDT)
    (hps : parse_datetime startDate tzOff = .ok sdt)
    (hpe : parse_datetime endDate tzOff = .ok edt)
    (hrev : dateOrdinal edt.naive.year edt.naive.month edt.naive.day < dateOrd sdt) :
    find_available_slots durationMinutes startDate endDate timePreference tzOff
      busyPeriods = .ok .noSlots := by
  rw [find_available_slots_eq hps hpe]
  have h0 : dateOrdinal edt.naive.year edt.naive.month edt.naive.day + 1 -
      dateOrd sdt = 0 := by omega
  rw [h0]
  simp [scanDays]

/-- Witness for C8: searching from 2025-11-29 back to 2025-11-28. -/
theorem reversed_range_yields_no_slots_witness :
    find_available_slots 30 "2025-11-29" "2025-11-28" "anytime" 0
      [(63899917200, 63899920800)] = .ok .noSlots :=
  reversed_range_yields_no_slots 30 "2025-11-29" "2025-11-28" "anytime" 0
    [(63899917200, 63899920800)] (localizeTo 0 ⟨2025, 11, 29, 0, 0, 0⟩)
    (localizeTo 0 ⟨2025, 11, 28, 0, 0, 0⟩) (by decide) (by decide) (by decide)

/-! ## C9 — the slot enumeration depends only on the calendar dates -/

/-- C9.  For a fixed busy set, duration and preference, two calls whose
start/end strings parse to the same calendar dates — whatever
time-of-day the strings carry — produce identical outcomes: each day's
scan starts at the preference hour and the end instant is overwritten to
23:59:59, so only the dates matter. -/
theorem slots_depend_only_on_dates
    (durationMinutes : Int) (timePreference : String) (tzOff : Int)
    (busyPeriods : List (Int × Int))
    (startDate1 endDate1 startDate2 endDate2 : String) (s1 e1 s2 e2 : AwareDT)
    (hps1 : parse_datetime startDate1 tzOff = .ok s1)
    (hpe1 : parse_datetime endDate1 tzOff = .ok e1)
    (hps2 : parse_datetime startDate2 tzOff = .ok s2)
    (hpe2 : parse_datetime endDate2 tzOff = .ok e2)
    (hsy : s1.naive.year = s2.naive.year) (hsm : s1.naive.month = s2.naive.month)
    (hsd : s1.naive.day = s2.naive.day)
    (hey : e1.naive.year = e2.naive.year) (hem : e1.naive.month = e2.naive.month)
    (hed : e1.naive.day = e2.naive.day) :
    find_available_slots durationMinutes startDate1 endDate1 timePreference tzOff
        busyPeriods =
      find_available_slots durationMinutes startDate2 endDate2 timePreference tzOff
        busyPeriods := by
  rw [find_available_slots_eq hps1 hpe1, find_available_slots_eq hps2 hpe2]
  have h1 : dateOrd s1 = dateOrd s2 := by unfold dateOrd; rw [hsy, hsm, hsd]
  have h2 : dateOrdinal e1.naive.year e1.naive.month e1.naive.day =
      dateOrdinal e2.naive.year e2.naive.month e2.naive.day := by rw [hey, hem, hed]
  rw [h1, h2]

/-- Witness for C9: `2025-11-28` versus `2025-11-28 07:15` as the start
string (and `2025-11-28` versus `2025-11-28 22:50` as the end string)
give the same outcome. -/
theorem slots_depend_only_on_dates_witness :
    find_available_slots 30 "2025-11-28" "2025-11-28" "morning" 0
        [(63899917200, 63899920800)] =
      find_available_slots 30 "2025-11-28 07:15" "2025-11-28 22:50" "morning" 0
        [(63899917200, 63899920800)] :=
  slots_depend_only_on_dates 30 "morning" 0 [(63899917200, 63899920800)]
    "2025-11-28" "2025-11-28" "2025-11-28 07:15" "2025-11-28 22:50"
    (localizeTo 0 ⟨2025, 11, 28, 0, 0, 0⟩) (localizeTo 0 ⟨2025, 11, 28, 0, 0, 0⟩)
    (localizeTo 0 ⟨2025, 11, 28, 7, 15, 0⟩) (localizeTo 0 ⟨2025, 11, 28, 22, 50, 0⟩)
    (by decide) (by decide) (by decide) (by decide)
    rfl rfl rfl rfl rfl rfl

/-! ## C2 — the Conflict Checker agrees with the Scanner's predicate -/

/-- The Gateway's free/busy restriction comes back empty exactly when the
window passes the Scanner's per-candidate availability test. -/
lemma queryFreeBusy_isEmpty_iff (tmin tmax : Int) (l : List (Int × Int)) :
    (queryFreeBusy tmin tmax l).isEmpty = true ↔
      slotIsAvailable tmin tmax l = true := by
  induction l with
  | nil => simp [queryFreeBusy, slotIsAvailable]
  | cons x xs ih =>
    simp only [queryFreeBusy, slotIsAvailable, List.filter_cons, List.all_cons] at *
    by_cases hx : overlapsBusy tmin tmax x = true
    · simp only [hx, if_pos]
      constructor
      · intro hh; simp at hh
      · intro hh
        have : (!(decide (tmax ≤ x.1) || decide (tmin ≥ x.2))) = true := hx
        simp only [Bool.and_eq_true] at hh
        rw [hh.1] at this
        simp at this
    · simp only [hx, if_neg, Bool.and_eq_true]
      have hx2 : (decide (tmax ≤ x.1) || decide (tmin ≥ x.2)) = true := by
        unfold overlapsBusy at hx
        cases hb : (decide (tmax ≤ x.1) || decide (tmin ≥ x.2))
        · rw [hb] at hx; simp at hx
        · rfl
      rw [hx2]
      simp only [true_and]
      exact ih

/-- Characterization of the checker once both datetimes parse. -/
lemma check_specific_time_availability_eq {startDatetime endDatetime : String}
    {tzOff : Int} {sdt edt : AwareDT} (allBusy : List (Int × Int))
    (hps : parse_datetime startDatetime tzOff = .ok sdt)
    (hpe : parse_datetime endDatetime tzOff = .ok edt) :
    check_specific_time_availability startDatetime endDatetime tzOff allBusy =
      (if (queryFreeBusy (absSeconds sdt) (absSeconds edt) allBusy).isEmpty
        then .ok .available
        else .ok (.conflict (queryFreeBusy (absSeconds sdt) (absSeconds edt) allBusy))) := by
  unfold check_specific_time_availability
  rw [hps, hpe]

/-- C2.  For a parsed proposed interval and the busy state the Gateway
draws from, the Conflict Checker answers AVAILABLE exactly when the
proposed interval passes the very test the Scanner applies to its
candidates (`slotIsAvailable`, i.e. no busy interval overlaps it under
`not (end <= busy.start or start >= busy.end)`); and on CONFLICT the
reported spans are exactly the overlapping busy spans, each with its own
start and end. -/
theorem checker_available_iff_scanner_predicate
    (startDatetime endDatetime : String) (tzOff : Int)
    (allBusy : List (Int × Int)) (sdt edt : AwareDT)
    (hps : parse_datetime startDatetime tzOff = .ok sdt)
    (hpe : parse_datetime endDatetime tzOff = .ok edt) :
    (check_specific_time_availability startDatetime endDatetime tzOff allBusy =
        .ok .available ↔
      slotIsAvailable (absSeconds sdt) (absSeconds edt) allBusy = true) ∧
    (∀ spans, check_specific_time_availability startDatetime endDatetime tzOff
        allBusy = .ok (.conflict spans) →
      spans = allBusy.filter (overlapsBusy (absSeconds sdt) (absSeconds edt)) ∧
      ∀ b ∈ allBusy, (overlapsBusy (absSeconds sdt) (absSeconds edt) b = true ↔
        b ∈ spans)) := by
  rw [check_specific_time_availability_eq allBusy hps hpe]
  constructor
  · by_cases hemp : (queryFreeBusy (absSeconds sdt) (absSeconds edt) allBusy).isEmpty
    · rw [if_pos hemp]
      simp only [true_iff, iff_true_intro rfl]
      exact (queryFreeBusy_isEmpty_iff _ _ _).1 hemp
    · rw [if_neg hemp]
      constructor
      · intro hc; exact absurd hc (by simp)
      · intro hav
        exact absurd ((queryFreeBusy_isEmpty_iff _ _ _).2 hav) hemp
  · intro spans hc
    split at hc
    · exact absurd hc (by simp)
    · injection hc with h1
      injection h1 with h2
      constructor
      · exact h2.symm
      · intro b hb
        rw [← h2]
        unfold queryFreeBusy
        constructor
        · intro hov; exact List.mem_filter.2 ⟨hb, hov⟩
        · intro hm; exact (List.mem_filter.1 hm).2

/-- Witness for C2, the boundary case: a proposed 09:00-10:00 slot whose
end exactly equals the 10:00-11:00 busy interval's start is AVAILABLE. -/
theorem checker_available_iff_scanner_predicate_witness :
    check_specific_time_availability "2025-11-28 09:00" "2025-11-28 10:00" 0
      [(63899920800, 63899924400)] = .ok .available :=
  (checker_available_iff_scanner_predicate "2025-11-28 09:00" "2025-11-28 10:00" 0
    [(63899920800, 63899924400)] (localizeTo 0 ⟨2025, 11, 28, 9, 0, 0⟩)
    (localizeTo 0 ⟨2025, 11, 28, 10, 0, 0⟩) (by decide) (by decide)).1.mpr (by decide)

/-! ## C5 — the Resolver picks the earliest match and reports the count -/

/-- C5.  A keyword with no match gives a not-found result, not an error; a
keyword with matches resolves to an earliest-starting match, reports the
number of events the Gateway returned for it, and appends the
multiple-matches note exactly when that count exceeds one. -/
theorem resolver_resolves_earliest (matching : List CalEvent) :
    (find_calendar_event_by_name matching = .notFound ↔ matching = []) ∧
    (∀ ev n note, find_calendar_event_by_name matching = .resolved ev n note →
      ev ∈ matching ∧ (∀ x ∈ matching, ev.startSec ≤ x.startSec) ∧
      n = (listEvents matching 10).length ∧ note = decide (1 < n)) := by
  have hperm := List.perm_insertionSort evLE matching
  have hsorted := List.sorted_insertionSort evLE matching
  unfold find_calendar_event_by_name listEvents processEvents
  cases hs : List.insertionSort evLE matching with
  | nil =>
    have hm : matching = [] := (hs ▸ hperm).nil_eq.symm
    subst hm
    simp at hs
    simp [hs]
  | cons e0 rest =>
    rw [hs] at hperm hsorted
    rw [List.take_succ_cons]
    constructor
    · constructor
      · intro hc; exact absurd hc (by simp)
      · intro hc
        subst hc
        exact absurd hperm (by simp)
    · intro ev n note hr
      injection hr with h1 h2 h3
      subst h1
      refine ⟨hperm.mem_iff.1 (List.mem_cons_self _ _), ?_, ?_, ?_⟩
      · intro x hx
        rcases List.mem_cons.1 (hperm.mem_iff.2 hx) with rfl | hx2
        · exact le_refl _
        · exact List.rel_of_sorted_cons hsorted x hx2
      · rw [← h2]
        simp
      · rw [← h3, ← h2]

/-- Witness for C5: two matches on different days resolve to the earlier
one with match count 2 and the multiple-matches note. -/
theorem resolver_resolves_earliest_witness :
    (⟨"A", 10, 20⟩ : CalEvent) ∈ [(⟨"B", 50, 60⟩ : CalEvent), ⟨"A", 10, 20⟩] ∧
    (∀ x ∈ [(⟨"B", 50, 60⟩ : CalEvent), ⟨"A", 10, 20⟩],
      (⟨"A", 10, 20⟩ : CalEvent).startSec ≤ x.startSec) ∧
    2 = (listEvents [(⟨"B", 50, 60⟩ : CalEvent), ⟨"A", 10, 20⟩] 10).length ∧
    true = decide (1 < 2) :=
  (resolver_resolves_earliest [⟨"B", 50, 60⟩, ⟨"A", 10, 20⟩]).2
    ⟨"A", 10, 20⟩ 2 true (by decide)

/-! ## C10 — the reported match count never exceeds 10 -/

/-- C10.  The Resolver's Gateway query carries `maxResults=10`, so the
match count it reports never exceeds 10 no matter how many events in the
180-day horizon match the keyword. -/
theorem resolver_count_at_most_ten (matching : List CalEvent)
    (ev : CalEvent) (n : Nat) (note : Bool)
    (h : find_calendar_event_by_name matching = .resolved ev n note) : n ≤ 10 := by
  have hlen : (listEvents matching 10).length ≤ 10 := by
    unfold listEvents
    exact List.length_take_le 10 (List.insertionSort evLE matching)
  unfold find_calendar_event_by_name processEvents at h
  cases hl : listEvents matching 10 with
  | nil => rw [hl] at h; exact absurd h (by simp)
  | cons e rest =>
    rw [hl] at h
    injection h with h1 h2 h3
    rw [hl] at hlen
    simp only [List.length_cons] at hlen
    omega

/-- Witness for C10: twelve matching events, count reported is 10. -/
theorem resolver_count_at_most_ten_witness :
    ((List.range 12).map fun i => (⟨"E", (i : Int), (i : Int) + 1⟩ : CalEvent)).length
        = 12 ∧ (10 : Nat) ≤ 10 :=
  ⟨by decide,
    resolver_count_at_most_ten
      ((List.range 12).map fun i => (⟨"E", (i : Int), (i : Int) + 1⟩ : CalEvent))
      ⟨"E", 0, 1⟩ 10 true (by decide)⟩

/-! ## C3 — the Normalizer tries exactly five formats in priority order -/

/-- The try-loop fails with the parse error exactly when every format in
the list fails. -/
lemma tryFormats_error_iff (tzOff : Int) (s : String) :
    ∀ fs : List Fmt,
      (tryFormats tzOff s fs = .error ("Could not parse datetime: " ++ s) ↔
        ∀ f ∈ fs, strptime f s = none) := by
  intro fs
  induction fs with
  | nil => simp [tryFormats]
  | cons f rest ih =>
    cases hf : strptime f s with
    | some n => simp [tryFormats, hf, List.forall_mem_cons]
    | none => simp [tryFormats, hf, List.forall_mem_cons, ih]

/-- The try-loop returns the first matching format's value, localized. -/
lemma tryFormats_first (tzOff : Int) (s : String) :
    ∀ (fs : List Fmt) (i : Nat) (f : Fmt) (n : NaiveDT), fs[i]? = some f →
      strptime f s = some n →
      (∀ j g, j < i → fs[j]? = some g → strptime g s = none) →
      tryFormats tzOff s fs = .ok (localizeTo tzOff n) := by
  intro fs
  induction fs with
  | nil => intro i f n h; simp at h
  | cons f0 rest ih =>
    intro i f n hi hf hprev
    cases i with
    | zero =>
      simp only [List.getElem?_cons_zero, Option.some.injEq] at hi
      subst hi
      simp [tryFormats, hf]
    | succ j =>
      have h0 : strptime f0 s = none := hprev 0 f0 (Nat.succ_pos j) (by simp)
      simp only [tryFormats, h0]
      exact ih j f n (by simpa using hi) hf
        (fun k g hk hkg => hprev (k + 1) g (by omega) (by simpa using hkg))

/-- A format containing none of the `%H`, `%M`, `%S` directives leaves the
default time fields untouched. -/
lemma runFmt_no_time_tokens :
    ∀ (toks : Fmt), (∀ t ∈ toks, t ≠ .H ∧ t ≠ .M ∧ t ≠ .S) →
      ∀ (cs : List Char) (acc acc2 : RawFields), runFmt toks cs acc = some acc2 →
        acc2.fhh = acc.fhh ∧ acc2.fmm = acc.fmm ∧ acc2.fss = acc.fss := by
  intro toks
  induction toks with
  | nil =>
    intro _ cs acc acc2 h
    cases cs with
    | nil =>
      simp only [runFmt, Option.some.injEq] at h
      subst h
      exact ⟨rfl, rfl, rfl⟩
    | cons c cs2 => simp [runFmt] at h
  | cons t ts ih =>
    intro hno cs acc acc2 h
    have hts : ∀ x ∈ ts, x ≠ .H ∧ x ≠ .M ∧ x ≠ .S :=
      fun x hx => hno x (List.mem_cons_of_mem _ hx)
    have ht := hno t (List.mem_cons_self _ _)
    cases t with
    | lit c =>
      cases cs with
      | nil => simp [runFmt] at h
      | cons c0 rest =>
        simp only [runFmt] at h
        split at h
        · split at h
          · exact ih hts _ _ _ h
          · simp at h
        · split at h
          · exact ih hts _ _ _ h
          · simp at h
    | Y =>
      simp only [runFmt] at h
      cases hm : matchY cs with
      | none => rw [hm] at h; simp at h
      | some p =>
        obtain ⟨v, r⟩ := p
        rw [hm] at h
        exact ih hts r { acc with fy := v } acc2 h
    | m =>
      simp only [runFmt] at h
      cases hm : matchMonth cs with
      | none => rw [hm] at h; simp at h
      | some p =>
        obtain ⟨v, r⟩ := p
        rw [hm] at h
        exact ih hts r { acc with fmo := v } acc2 h
    | d =>
      simp only [runFmt] at h
      cases hm : matchDay cs with
      | none => rw [hm] at h; simp at h
      | some p =>
        obtain ⟨v, r⟩ := p
        rw [hm] at h
        exact ih hts r { acc with fdy := v } acc2 h
    | H => exact absurd rfl ht.1
    | M => exact absurd rfl ht.2.1
    | S => exact absurd rfl ht.2.2

/-- The date-only format yields midnight. -/
lemma strptime_fmtD_midnight (s : String) (n : NaiveDT)
    (h : strptime fmtD s = some n) :
    n.hour = 0 ∧ n.minute = 0 ∧ n.second = 0 := by
  unfold strptime at h
  cases hr : runFmt fmtD s.toList {} with
  | none => rw [hr] at h; simp at h
  | some f =>
    rw [hr] at h
    simp only [Option.some_bind, Option.ite_none_right_eq_some,
      Option.some.injEq] at h
    obtain ⟨hvalid, hn⟩ := h
    have hfields := runFmt_no_time_tokens fmtD (by decide) _ _ _ hr
    rw [← hn]
    simpa using hfields

/-- C3.  `parse_datetime` tries exactly the five formats of `FORMATS` in
that fixed order: it fails with the parse error exactly when all five
fail; whenever format `i` matches and every earlier format fails, the
result is format `i`'s value localized to the default timezone; and the
date-only format always yields midnight. -/
theorem parse_datetime_five_formats (s : String) (tzOff : Int) :
    (parse_datetime s tzOff = .error ("Could not parse datetime: " ++ s) ↔
      ∀ f ∈ FORMATS, strptime f s = none) ∧
    (∀ (i : Nat) (f : Fmt) (n : NaiveDT), FORMATS[i]? = some f →
      strptime f s = some n →
      (∀ (j : Nat) (g : Fmt), j < i → FORMATS[j]? = some g → strptime g s = none) →
      parse_datetime s tzOff = .ok (localizeTo tzOff n)) ∧
    (∀ n, strptime fmtD s = some n → n.hour = 0 ∧ n.minute = 0 ∧ n.second = 0) :=
  ⟨tryFormats_error_iff tzOff s FORMATS,
   fun i f n hi hf hprev => tryFormats_first tzOff s FORMATS i f n hi hf hprev,
   fun n h => strptime_fmtD_midnight s n h⟩

/-- Witness for C3: `"2025-11-28 10:30"` matches the fourth format (space
separated, no seconds) after the first three fail, yielding 10:30 local. -/
theorem parse_datetime_five_formats_witness :
    parse_datetime "2025-11-28 10:30" 0 =
      .ok (localizeTo 0 ⟨2025, 11, 28, 10, 30, 0⟩) :=
  (parse_datetime_five_formats "2025-11-28 10:30" 0).2.1 3 fmtSM
    ⟨2025, 11, 28, 10, 30, 0⟩ (by decide) (by decide)
    (by intro j g hj hg
        interval_cases j <;>
          simp only [FORMATS, List.getElem?_cons_zero, List.getElem?_cons_succ,
            Option.some.injEq] at hg <;>
          subst hg <;> decide)

/-! ## C4 — the Event Writer submits without validating start < end -/

/-- C4 counterexample.  With a start strictly after the end, both strings
parse and the Writer still submits the event body — the claim that it
never submits a record whose start is not strictly before its end fails. -/
theorem create_event_start_after_end_counterexample :
    create_calendar_event "Sync" "2025-11-28 10:00" "2025-11-28 09:00" "" "" 0 =
      .ok { summary := "Sync",
            startDT := localizeTo 0 ⟨2025, 11, 28, 10, 0, 0⟩,
            endDT := localizeTo 0 ⟨2025, 11, 28, 9, 0, 0⟩,
            description := none, attendees := none } ∧
    absSeconds (localizeTo 0 ⟨2025, 11, 28, 9, 0, 0⟩) <
      absSeconds (localizeTo 0 ⟨2025, 11, 28, 10, 0, 0⟩) := by
  decide

/-- C4 as amended.  Whenever both datetime strings parse, the Writer
submits the event body built from them — with no start-before-end
validation, so also when start is at or after end — and the submitted
attendee list is the comma-split list with each entry stripped and blank
entries dropped (omitted entirely when nothing non-blank remains). -/
theorem create_event_submits_without_order_validation
    (title startDatetime endDatetime description attendees : String) (tzOff : Int)
    (sdt edt : AwareDT)
    (hps : parse_datetime startDatetime tzOff = .ok sdt)
    (hpe : parse_datetime endDatetime tzOff = .ok edt) :
    create_calendar_event title startDatetime endDatetime description attendees
        tzOff =
      .ok { summary := title, startDT := sdt, endDT := edt,
            description := if description ≠ "" then some description else none,
            attendees :=
              if (((pySplitComma attendees).map stripStr).filter
                  (fun e => e ≠ "")).isEmpty then none
              else some (((pySplitComma attendees).map stripStr).filter
                (fun e => e ≠ "")) } ∧
    ∀ x ∈ ((pySplitComma attendees).map stripStr).filter (fun e => e ≠ ""),
      x ≠ "" := by
  constructor
  · unfold create_calendar_event
    rw [hps, hpe]
    by_cases hatt : attendees = ""
    · subst hatt
      have hstrip : ((pySplitComma "").map stripStr).filter
          (fun e => e ≠ "") = [] := by decide
      rw [hstrip]
      split_ifs <;> first | rfl | simp_all
    · split_ifs <;> first | rfl | simp_all
  · intro x hx
    simpa using (List.mem_filter.1 hx).2

/-- Witness for C4's amended claim: start 09:00, end 10:00, attendees
`" a@x.com ,, b@y.com "` submit with the two stripped addresses and the
blank entry dropped. -/
theorem create_event_submits_without_order_validation_witness :
    create_calendar_event "Team Sync" "2025-11-28 09:00" "2025-11-28 10:00" "notes"
        " a@x.com ,, b@y.com " 0 =
      .ok { summary := "Team Sync",
            startDT := localizeTo 0 ⟨2025, 11, 28, 9, 0, 0⟩,
            endDT := localizeTo 0 ⟨2025, 11, 28, 10, 0, 0⟩,
            description := some "notes",
            attendees := some ["a@x.com", "b@y.com"] } :=
  ((create_event_submits_without_order_validation "Team Sync" "2025-11-28 09:00"
      "2025-11-28 10:00" "notes" " a@x.com ,, b@y.com " 0
      (localizeTo 0 ⟨2025, 11, 28, 9, 0, 0⟩) (localizeTo 0 ⟨2025, 11, 28, 10, 0, 0⟩)
      (by decide) (by decide)).1).trans (by decide)

/-! ## C7 — round-trip machinery

Lemmas showing how each `strptime` matcher consumes the canonical
zero-padded rendering of an in-range field, and how `runFmt` marches
through each rendered shape. -/

lemma toList_mk (l : List Char) : (⟨l⟩ : String).toList = l := rfl

lemma digitVal_digitChar : ∀ k, k < 10 → digitVal (digitChar k) = some k := by decide

lemma isWsChar_digitChar (k : Nat) : isWsChar (digitChar k) = false := by
  unfold digitChar
  split <;> decide

lemma daysInMonth_le_31 (y m : Nat) : daysInMonth y m ≤ 31 := by
  unfold daysInMonth
  split_ifs <;> omega

lemma matchY_pad4 (y : Nat) (hy : y ≤ 9999) (r : List Char) :
    matchY (pad4 y ++ r) = some (y, r) := by
  have e1 := digitVal_digitChar (y / 1000 % 10) (Nat.mod_lt _ (by norm_num))
  have e2 := digitVal_digitChar (y / 100 % 10) (Nat.mod_lt _ (by norm_num))
  have e3 := digitVal_digitChar (y / 10 % 10) (Nat.mod_lt _ (by norm_num))
  have e4 := digitVal_digitChar (y % 10) (Nat.mod_lt _ (by norm_num))
  simp only [pad4, List.cons_append, List.nil_append, matchY, e1, e2, e3, e4,
    Option.some.injEq, Prod.mk.injEq]
  exact ⟨by omega, trivial⟩

lemma matchNum2_pad2 (twoOk : Nat → Nat → Bool) (oneOk : Nat → Bool) (x : Nat)
    (hx : x ≤ 99) (h2 : twoOk (x / 10) (x % 10) = true) (r : List Char) :
    matchNum2 twoOk oneOk (pad2 x ++ r) = some (x, r) := by
  have hmod : x / 10 % 10 = x / 10 := Nat.mod_eq_of_lt (by omega)
  have e1 := digitVal_digitChar (x / 10) (by omega)
  have e2 := digitVal_digitChar (x % 10) (Nat.mod_lt _ (by norm_num))
  simp only [pad2, hmod, List.cons_append, List.nil_append, matchNum2, e1, e2, h2,
    if_true, Option.some.injEq, Prod.mk.injEq]
  exact ⟨by omega, trivial⟩

lemma matchMonth_pad2 (m : Nat) (h1 : 1 ≤ m) (h2 : m ≤ 12) (r : List Char) :
    matchMonth (pad2 m ++ r) = some (m, r) := by
  unfold matchMonth
  refine matchNum2_pad2 _ _ m (by omega) ?_ r
  simp only [Bool.or_eq_true, Bool.and_eq_true, beq_iff_eq, decide_eq_true_eq]
  omega

lemma matchDay_pad2 (d : Nat) (h1 : 1 ≤ d) (h2 : d ≤ 31) (r : List Char) :
    matchDay (pad2 d ++ r) = some (d, r) := by
  unfold matchDay
  refine matchNum2_pad2 _ _ d (by omega) ?_ r
  simp only [Bool.or_eq_true, Bool.and_eq_true, beq_iff_eq, decide_eq_true_eq]
  omega

lemma matchHour_pad2 (h : Nat) (h2 : h ≤ 23) (r : List Char) :
    matchHour (pad2 h ++ r) = some (h, r) := by
  unfold matchHour
  refine matchNum2_pad2 _ _ h (by omega) ?_ r
  simp only [Bool.or_eq_true, Bool.and_eq_true, beq_iff_eq, decide_eq_true_eq]
  omega

lemma matchMinute_pad2 (mi : Nat) (h2 : mi ≤ 59) (r : List Char) :
    matchMinute (pad2 mi ++ r) = some (mi, r) := by
  unfold matchMinute
  refine matchNum2_pad2 _ _ mi (by omega) ?_ r
  simp only [decide_eq_true_eq]
  omega

lemma matchSecond_pad2 (ss : Nat) (h2 : ss ≤ 59) (r : List Char) :
    matchSecond (pad2 ss ++ r) = some (ss, r) := by
  unfold matchSecond
  refine matchNum2_pad2 _ _ ss (by omega) ?_ r
  simp only [Bool.or_eq_true, Bool.and_eq_true, beq_iff_eq, decide_eq_true_eq]
  omega

lemma runFmt_Y {s r : List Char} {v : Nat} (ts : Fmt) (acc : RawFields)
    (h : matchY s = some (v, r)) :
    runFmt (.Y :: ts) s acc = runFmt ts r { acc with fy := v } := by
  simp only [runFmt, h]

lemma runFmt_mTok {s r : List Char} {v : Nat} (ts : Fmt) (acc : RawFields)
    (h : matchMonth s = some (v, r)) :
    runFmt (.m :: ts) s acc = runFmt ts r { acc with fmo := v } := by
  simp only [runFmt, h]

lemma runFmt_dTok {s r : List Char} {v : Nat} (ts : Fmt) (acc : RawFields)
    (h : matchDay s = some (v, r)) :
    runFmt (.d :: ts) s acc = runFmt ts r { acc with fdy := v } := by
  simp only [runFmt, h]

lemma runFmt_HTok {s r : List Char} {v : Nat} (ts : Fmt) (acc : RawFields)
    (h : matchHour s = some (v, r)) :
    runFmt (.H :: ts) s acc = runFmt ts r { acc with fhh := v } := by
  simp only [runFmt, h]

lemma runFmt_MTok {s r : List Char} {v : Nat} (ts : Fmt) (acc : RawFields)
    (h : matchMinute s = some (v, r)) :
    runFmt (.M :: ts) s acc = runFmt ts r { acc with fmm := v } := by
  simp only [runFmt, h]

lemma runFmt_STok {s r : List Char} {v : Nat} (ts : Fmt) (acc : RawFields)
    (h : matchSecond s = some (v, r)) :
    runFmt (.S :: ts) s acc = runFmt ts r { acc with fss := v } := by
  simp only [runFmt, h]

lemma runFmt_lit {c c0 : Char} (hws : isWsChar c = false)
    (hmatch : c0.toLower = c.toLower) (ts : Fmt) (s : List Char) (acc : RawFields) :
    runFmt (.lit c :: ts) (c0 :: s) acc = runFmt ts s acc := by
  simp [runFmt, hws, hmatch]

lemma runFmt_lit_mismatch {c c0 : Char} (hws : isWsChar c = false)
    (hne : ¬ c0.toLower = c.toLower) (ts : Fmt) (s : List Char) (acc : RawFields) :
    runFmt (.lit c :: ts) (c0 :: s) acc = none := by
  simp [runFmt, hws, hne]

lemma runFmt_lit_nil {c : Char} (hws : isWsChar c = false) (ts : Fmt)
    (acc : RawFields) : runFmt (.lit c :: ts) [] acc = none := by
  simp [runFmt, hws]

lemma runFmt_lit_space_nil (ts : Fmt) (acc : RawFields) :
    runFmt (.lit ' ' :: ts) [] acc = none := by
  simp [runFmt, isWsChar]

lemma runFmt_lit_ws_cons (ts : Fmt) (s : List Char) (acc : RawFields) :
    runFmt (.lit ' ' :: ts) (' ' :: s) acc = runFmt ts (dropWsAll s) acc := by
  simp [runFmt, isWsChar]

lemma dropWsAll_pad2 (x : Nat) (r : List Char) :
    dropWsAll (pad2 x ++ r) = pad2 x ++ r := by
  simp [pad2, dropWsAll, isWsChar_digitChar]

lemma runFmt_datePre (y mo dy : Nat) (hy : y ≤ 9999) (hm1 : 1 ≤ mo) (hm : mo ≤ 12)
    (hd1 : 1 ≤ dy) (hd : dy ≤ 31) (ts : Fmt) (tail : List Char) (acc : RawFields) :
    runFmt (.Y :: .lit '-' :: .m :: .lit '-' :: .d :: ts)
        (pad4 y ++ ('-' :: (pad2 mo ++ ('-' :: (pad2 dy ++ tail))))) acc =
      runFmt ts tail { acc with fy := y, fmo := mo, fdy := dy } := by
  rw [runFmt_Y _ _ (matchY_pad4 y hy _),
    runFmt_lit (by decide) (by decide),
    runFmt_mTok _ _ (matchMonth_pad2 mo hm1 hm _),
    runFmt_lit (by decide) (by decide),
    runFmt_dTok _ _ (matchDay_pad2 dy hd1 hd _)]

lemma runFmt_HM (hh mi : Nat) (hhh : hh ≤ 23) (hmi : mi ≤ 59) (ts : Fmt)
    (tail : List Char) (acc : RawFields) :
    runFmt (.H :: .lit ':' :: .M :: ts) (pad2 hh ++ (':' :: (pad2 mi ++ tail))) acc =
      runFmt ts tail { acc with fhh := hh, fmm := mi } := by
  rw [runFmt_HTok _ _ (matchHour_pad2 hh hhh _),
    runFmt_lit (by decide) (by decide),
    runFmt_MTok _ _ (matchMinute_pad2 mi hmi _)]

lemma runFmt_colon_S_end (ss : Nat) (hss : ss ≤ 59) (acc : RawFields) :
    runFmt [.lit ':', .S] (':' :: pad2 ss) acc = some { acc with fss := ss } := by
  rw [runFmt_lit (by decide) (by decide)]
  have h := matchSecond_pad2 ss hss []
  rw [List.append_nil] at h
  rw [runFmt_STok _ _ h]
  rfl

/-! ### Which formats accept which rendered shape -/

lemma strptime_fmtTS_renderTS (n : NaiveDT) (hv : ValidDT n) :
    strptime fmtTS ⟨renderTS n⟩ = some n := by
  obtain ⟨h1, h2, h3, h4, h5, h6, h7, h8, h9⟩ := hv
  unfold strptime fmtTS
  rw [toList_mk]
  unfold renderTS
  rw [runFmt_datePre n.year n.month n.day h2 h3 h4 h5
      (le_trans h6 (daysInMonth_le_31 _ _)),
    runFmt_lit (by decide) (by decide),
    runFmt_HM n.hour n.minute h7 h8,
    runFmt_colon_S_end n.second h9]
  simp only [Option.some_bind]
  rw [if_pos ⟨h1, h6, h9⟩]

lemma strptime_fmtTM_renderTM (n : NaiveDT) (hv : ValidDT n) :
    strptime fmtTM ⟨renderTM n⟩ = some { n with second := 0 } := by
  obtain ⟨h1, h2, h3, h4, h5, h6, h7, h8, h9⟩ := hv
  unfold strptime fmtTM
  rw [toList_mk]
  unfold renderTM
  rw [← List.append_nil (pad2 n.minute)]
  rw [runFmt_datePre n.year n.month n.day h2 h3 h4 h5
      (le_trans h6 (daysInMonth_le_31 _ _)),
    runFmt_lit (by decide) (by decide),
    runFmt_HM n.hour n.minute h7 h8]
  simp only [runFmt, Option.some_bind]
  rw [if_pos ⟨h1, h6, Nat.zero_le _⟩]

lemma strptime_fmtTS_renderTM_none (n : NaiveDT) (hv : ValidDT n) :
    strptime fmtTS ⟨renderTM n⟩ = none := by
  obtain ⟨h1, h2, h3, h4, h5, h6, h7, h8, h9⟩ := hv
  unfold strptime fmtTS
  rw [toList_mk]
  unfold renderTM
  rw [← List.append_nil (pad2 n.minute)]
  rw [runFmt_datePre n.year n.month n.day h2 h3 h4 h5
      (le_trans h6 (daysInMonth_le_31 _ _)),
    runFmt_lit (by decide) (by decide),
    runFmt_HM n.hour n.minute h7 h8,
    runFmt_lit_nil (by decide)]
  rfl

lemma strptime_fmtSS_renderSS (n : NaiveDT) (hv : ValidDT n) :
    strptime fmtSS ⟨renderSS n⟩ = some n := by
  obtain ⟨h1, h2, h3, h4, h5, h6, h7, h8, h9⟩ := hv
  unfold strptime fmtSS
  rw [toList_mk]
  unfold renderSS
  rw [runFmt_datePre n.year n.month n.day h2 h3 h4 h5
      (le_trans h6 (daysInMonth_le_31 _ _)),
    runFmt_lit_ws_cons, dropWsAll_pad2,
    runFmt_HM n.hour n.minute h7 h8,
    runFmt_colon_S_end n.second h9]
  simp only [Option.some_bind]
  rw [if_pos ⟨h1, h6, h9⟩]

lemma strptime_fmtTS_renderSS_none (n : NaiveDT) (hv : ValidDT n) :
    strptime fmtTS ⟨renderSS n⟩ = none := by
  obtain ⟨h1, h2, h3, h4, h5, h6, h7, h8, h9⟩ := hv
  unfold strptime fmtTS
  rw [toList_mk]
  unfold renderSS
  rw [runFmt_datePre n.year n.month n.day h2 h3 h4 h5
      (le_trans h6 (daysInMonth_le_31 _ _)),
    runFmt_lit_mismatch (by decide) (by decide)]
  rfl

lemma strptime_fmtTM_renderSS_none (n : NaiveDT) (hv : ValidDT n) :
    strptime fmtTM ⟨renderSS n⟩ = none := by
  obtain ⟨h1, h2, h3, h4, h5, h6, h7, h8, h9⟩ := hv
  unfold strptime fmtTM
  rw [toList_mk]
  unfold renderSS
  rw [runFmt_datePre n.year n.month n.day h2 h3 h4 h5
      (le_trans h6 (daysInMonth_le_31 _ _)),
    runFmt_lit_mismatch (by decide) (by decide)]
  rfl

lemma strptime_fmtSM_renderSM (n : NaiveDT) (hv : ValidDT n) :
    strptime fmtSM ⟨renderSM n⟩ = some { n with second := 0 } := by
  obtain ⟨h1, h2, h3, h4, h5, h6, h7, h8, h9⟩ := hv
  unfold strptime fmtSM
  rw [toList_mk]
  unfold renderSM
  rw [← List.append_nil (pad2 n.minute)]
  rw [runFmt_datePre n.year n.month n.day h2 h3 h4 h5
      (le_trans h6 (daysInMonth_le_31 _ _)),
    runFmt_lit_ws_cons, dropWsAll_pad2,
    runFmt_HM n.hour n.minute h7 h8]
  simp only [runFmt, Option.some_bind]
  rw [if_pos ⟨h1, h6, Nat.zero_le _⟩]

lemma strptime_fmtTS_renderSM_none (n : NaiveDT) (hv : ValidDT n) :
    strptime fmtTS ⟨renderSM n⟩ = none := by
  obtain ⟨h1, h2, h3, h4, h5, h6, h7, h8, h9⟩ := hv
  unfold strptime fmtTS
  rw [toList_mk]
  unfold renderSM
  rw [runFmt_datePre n.year n.month n.day h2 h3 h4 h5
      (le_trans h6 (daysInMonth_le_31 _ _)),
    runFmt_lit_mismatch (by decide) (by decide)]
  rfl

lemma strptime_fmtTM_renderSM_none (n : NaiveDT) (hv : ValidDT n) :
    strptime fmtTM ⟨renderSM n⟩ = none := by
  obtain ⟨h1, h2, h3, h4, h5, h6, h7, h8, h9⟩ := hv
  unfold strptime fmtTM
  rw [toList_mk]
  unfold renderSM
  rw [runFmt_datePre n.year n.month n.day h2 h3 h4 h5
      (le_trans h6 (daysInMonth_le_31 _ _)),
    runFmt_lit_mismatch (by decide) (by decide)]
  rfl

lemma strptime_fmtSS_renderSM_none (n : NaiveDT) (hv : ValidDT n) :
    strptime fmtSS ⟨renderSM n⟩ = none := by
  obtain ⟨h1, h2, h3, h4, h5, h6, h7, h8, h9⟩ := hv
  unfold strptime fmtSS
  rw [toList_mk]
  unfold renderSM
  rw [← List.append_nil (pad2 n.minute)]
  rw [runFmt_datePre n.year n.month n.day h2 h3 h4 h5
      (le_trans h6 (daysInMonth_le_31 _ _)),
    runFmt_lit_ws_cons, dropWsAll_pad2,
    runFmt_HM n.hour n.minute h7 h8,
    runFmt_lit_nil (by decide)]
  rfl

lemma strptime_fmtD_renderD (n : NaiveDT) (hv : ValidDT n) :
    strptime fmtD ⟨renderD n⟩ =
      some { n with hour := 0, minute := 0, second := 0 } := by
  obtain ⟨h1, h2, h3, h4, h5, h6, h7, h8, h9⟩ := hv
  unfold strptime fmtD
  rw [toList_mk]
  unfold renderD
  rw [← List.append_nil (pad2 n.day)]
  rw [runFmt_datePre n.year n.month n.day h2 h3 h4 h5
      (le_trans h6 (daysInMonth_le_31 _ _))]
  simp only [runFmt, Option.some_bind]
  rw [if_pos ⟨h1, h6, Nat.zero_le _⟩]

lemma strptime_fmtTS_renderD_none (n : NaiveDT) (hv : ValidDT n) :
    strptime fmtTS ⟨renderD n⟩ = none := by
  obtain ⟨h1, h2, h3, h4, h5, h6, h7, h8, h9⟩ := hv
  unfold strptime fmtTS
  rw [toList_mk]
  unfold renderD
  rw [← List.append_nil (pad2 n.day)]
  rw [runFmt_datePre n.year n.month n.day h2 h3 h4 h5
      (le_trans h6 (daysInMonth_le_31 _ _)),
    runFmt_lit_nil (by decide)]
  rfl

lemma strptime_fmtTM_renderD_none (n : NaiveDT) (hv : ValidDT n) :
    strptime fmtTM ⟨renderD n⟩ = none := by
  obtain ⟨h1, h2, h3, h4, h5, h6, h7, h8, h9⟩ := hv
  unfold strptime fmtTM
  rw [toList_mk]
  unfold renderD
  rw [← List.append_nil (pad2 n.day)]
  rw [runFmt_datePre n.year n.month n.day h2 h3 h4 h5
      (le_trans h6 (daysInMonth_le_31 _ _)),
    runFmt_lit_nil (by decide)]
  rfl

lemma strptime_fmtSS_renderD_none (n : NaiveDT) (hv : ValidDT n) :
    strptime fmtSS ⟨renderD n⟩ = none := by
  obtain ⟨h1, h2, h3, h4, h5, h6, h7, h8, h9⟩ := hv
  unfold strptime fmtSS
  rw [toList_mk]
  unfold renderD
  rw [← List.append_nil (pad2 n.day)]
  rw [runFmt_datePre n.year n.month n.day h2 h3 h4 h5
      (le_trans h6 (daysInMonth_le_31 _ _)),
    runFmt_lit_space_nil]
  rfl

lemma strptime_fmtSM_renderD_none (n : NaiveDT) (hv : ValidDT n) :
    strptime fmtSM ⟨renderD n⟩ = none := by
  obtain ⟨h1, h2, h3, h4, h5, h6, h7, h8, h9⟩ := hv
  unfold strptime fmtSM
  rw [toList_mk]
  unfold renderD
  rw [← List.append_nil (pad2 n.day)]
  rw [runFmt_datePre n.year n.month n.day h2 h3 h4 h5
      (le_trans h6 (daysInMonth_le_31 _ _)),
    runFmt_lit_space_nil]
  rfl

/-! ## C7 — the round-trip property -/

/-- C7 counterexample.  `format_datetime_for_api` is `datetime.isoformat`,
which on the (always timezone-aware) Instants the Normalizer produces
appends the UTC-offset suffix; no accepted shape contains an offset, so
re-parsing the program formatter's output fails instead of returning the
original Instant. -/
theorem roundtrip_fails_for_program_formatter :
    parse_datetime "2025-11-28" 0 = .ok (localizeTo 0 ⟨2025, 11, 28, 0, 0, 0⟩) ∧
    format_datetime_for_api (localizeTo 0 ⟨2025, 11, 28, 0, 0, 0⟩) =
      "2025-11-28T00:00:00+00:00" ∧
    parse_datetime (format_datetime_for_api (localizeTo 0 ⟨2025, 11, 28, 0, 0, 0⟩))
        0 ≠ .ok (localizeTo 0 ⟨2025, 11, 28, 0, 0, 0⟩) := by
  decide

/-- C7 as amended.  The round trip holds for the five accepted literal
shapes themselves: for every valid instant, rendering its wall-clock
fields in a shape and re-parsing with the same default timezone returns
exactly the same Instant — unconditionally for the two shapes with
seconds, when the seconds are zero for the two shapes without them, and
at midnight for the date-only shape.  It is only the program's formatter
(`isoformat`, which appends the offset) whose output the parser rejects. -/
theorem parse_render_round_trip (n : NaiveDT) (tzOff : Int) (hv : ValidDT n) :
    parse_datetime ⟨renderTS n⟩ tzOff = .ok (localizeTo tzOff n) ∧
    (n.second = 0 → parse_datetime ⟨renderTM n⟩ tzOff = .ok (localizeTo tzOff n)) ∧
    parse_datetime ⟨renderSS n⟩ tzOff = .ok (localizeTo tzOff n) ∧
    (n.second = 0 → parse_datetime ⟨renderSM n⟩ tzOff = .ok (localizeTo tzOff n)) ∧
    (n.hour = 0 → n.minute = 0 → n.second = 0 →
      parse_datetime ⟨renderD n⟩ tzOff = .ok (localizeTo tzOff n)) := by
  refine ⟨?_, ?_, ?_, ?_, ?_⟩
  · have e := strptime_fmtTS_renderTS n hv
    simp [parse_datetime, FORMATS, tryFormats, e]
  · intro hsec
    have hn : ({ n with second := 0 } : NaiveDT) = n := by
      obtain ⟨y, mo2, d2, hh, mm, ss⟩ := n
      have e : ss = 0 := hsec
      subst e
      rfl
    have e1 := strptime_fmtTS_renderTM_none n hv
    have e2 := strptime_fmtTM_renderTM n hv
    simp [parse_datetime, FORMATS, tryFormats, e1, e2, hn]
  · have e1 := strptime_fmtTS_renderSS_none n hv
    have e2 := strptime_fmtTM_renderSS_none n hv
    have e3 := strptime_fmtSS_renderSS n hv
    simp [parse_datetime, FORMATS, tryFormats, e1, e2, e3]
  · intro hsec
    have hn : ({ n with second := 0 } : NaiveDT) = n := by
      obtain ⟨y, mo2, d2, hh, mm, ss⟩ := n
      have e : ss = 0 := hsec
      subst e
      rfl
    have e1 := strptime_fmtTS_renderSM_none n hv
    have e2 := strptime_fmtTM_renderSM_none n hv
    have e3 := strptime_fmtSS_renderSM_none n hv
    have e4 := strptime_fmtSM_renderSM n hv
    simp [parse_datetime, FORMATS, tryFormats, e1, e2, e3, e4, hn]
  · intro hh0 hm0 hs0
    have hn : ({ n with hour := 0, minute := 0, second := 0 } : NaiveDT) = n := by
      obtain ⟨y, mo2, d2, hh, mm, ss⟩ := n
      have e1 : hh = 0 := hh0
      have e2 : mm = 0 := hm0
      have e3 : ss = 0 := hs0
      subst e1; subst e2; subst e3
      rfl
    have e1 := strptime_fmtTS_renderD_none n hv
    have e2 := strptime_fmtTM_renderD_none n hv
    have e3 := strptime_fmtSS_renderD_none n hv
    have e4 := strptime_fmtSM_renderD_none n hv
    have e5 := strptime_fmtD_renderD n hv
    simp [parse_datetime, FORMATS, tryFormats, e1, e2, e3, e4, e5, hn]

/-- Witness for C7's amended claim: midnight 2025-11-28 round-trips
through all five shapes. -/
theorem parse_render_round_trip_witness :
    parse_datetime ⟨renderTS ⟨2025, 11, 28, 0, 0, 0⟩⟩ 0 =
        .ok (localizeTo 0 ⟨2025, 11, 28, 0, 0, 0⟩) ∧
    parse_datetime ⟨renderTM ⟨2025, 11, 28, 0, 0, 0⟩⟩ 0 =
        .ok (localizeTo 0 ⟨2025, 11, 28, 0, 0, 0⟩) ∧
    parse_datetime ⟨renderSS ⟨2025, 11, 28, 0, 0, 0⟩⟩ 0 =
        .ok (localizeTo 0 ⟨2025, 11, 28, 0, 0, 0⟩) ∧
    parse_datetime ⟨renderSM ⟨2025, 11, 28, 0, 0, 0⟩⟩ 0 =
        .ok (localizeTo 0 ⟨2025, 11, 28, 0, 0, 0⟩) ∧
    parse_datetime ⟨renderD ⟨2025, 11, 28, 0, 0, 0⟩⟩ 0 =
        .ok (localizeTo 0 ⟨2025, 11, 28, 0, 0, 0⟩) :=
  have h := parse_render_round_trip ⟨2025, 11, 28, 0, 0, 0⟩ 0 (by decide)
  ⟨h.1, h.2.1 rfl, h.2.2.1, h.2.2.2.1 rfl, h.2.2.2.2 rfl rfl rfl⟩

end SmartScheduler
